import Mathlib

/-!
Shallow embedding of
`PytorchWildlife/models/classification/resnet_base/base_classifier.py`.

The module is thin orchestration over torch/torchvision: it selects a ResNet
configuration, loads checkpoint weights from a file or a URL, and exposes
single-image and batch inference entry points.  Exceptions raised with
`raise` in the Python source are modelled with `Except`; tensor computations
are modelled symbolically (a tensor expression records which framework
operations were applied, in order), since the numeric kernels live entirely
in the framework and none of the claims concern numeric values.
-/

/-- Exceptions explicitly raised (with `raise Exception(...)`) somewhere in the
module.  There are exactly three `raise` statements in the source:
`"ResNet Type not supported."` in `PlainResNetClassifier.setup_net`,
`"Need weights for inference."` in `PlainResNetInference.__init__`, and
`"Need data for inference."` in `PlainResNetInference.batch_image_classification`. -/
inductive ModuleError where
  | resnetTypeNotSupported
  | needWeights
  | needData
deriving DecidableEq, Repr

/-- Residual block type passed to the `ResNetBackbone` constructor.
Modelled from torchvision (`torchvision.models.resnet`), which the module
imports: `BasicBlock` and `Bottleneck`. -/
inductive Block where
  | basicBlock
  | bottleneck
deriving DecidableEq, Repr

/-- Expansion factor of each block type.  Modelled from torchvision:
`BasicBlock.expansion = 1`, `Bottleneck.expansion = 4`. -/
def Block.expansion : Block → Nat
  | Block.basicBlock => 1
  | Block.bottleneck => 4

/-- Plane widths of the four residual stages of a torchvision `ResNet`
(`layer1` .. `layer4` are built with planes 64, 128, 256, 512).  Modelled
from torchvision. -/
def resnetStagePlanes : List Nat := [64, 128, 256, 512]

/-- Output channel count of a residual stage built from `block` with the given
plane width.  Modelled from torchvision: a stage ends with
`planes * block.expansion` channels. -/
def stageOutChannels (block : Block) (planes : Nat) : Nat :=
  planes * block.expansion

/-- Channel count of the backbone output after `avgpool` (which reduces each
channel to a single value) and `torch.flatten(x, 1)`: the flattened feature
dimension equals the channel count of the last stage, `layer4`. -/
def backboneOutDim (block : Block) : Nat :=
  stageOutChannels block (resnetStagePlanes.getLastD 0)

/-- Network configuration produced by `PlainResNetClassifier.setup_net`:
the chosen block type, the per-stage layer counts handed to `ResNetBackbone`,
and the dimensions of the `nn.Linear` classifier head. -/
structure NetConfig where
  block : Block
  layers : List Nat
  classifierInDim : Nat
  classifierOutDim : Nat
deriving DecidableEq, Repr

/-- Embedding of `PlainResNetClassifier.setup_net` (with `num_cls` and
`num_layers` the attributes set by `PlainResNetClassifier.__init__`).
The source selects `(block, layers)` for `num_layers == 18` or
`num_layers == 50` and otherwise raises `"ResNet Type not supported."`;
it then builds `ResNetBackbone(block, layers)` and
`nn.Linear(512 * block.expansion, self.num_cls)`. -/
def setup_net (num_cls : Nat) (num_layers : Int) : Except ModuleError NetConfig :=
  if num_layers = 18 then
    let block := Block.basicBlock
    let layers := [2, 2, 2, 2]
    Except.ok { block := block, layers := layers,
                classifierInDim := 512 * block.expansion,
                classifierOutDim := num_cls }
  else if num_layers = 50 then
    let block := Block.bottleneck
    let layers := [3, 4, 6, 3]
    Except.ok { block := block, layers := layers,
                classifierInDim := 512 * block.expansion,
                classifierOutDim := num_cls }
  else
    Except.error ModuleError.resnetTypeNotSupported

/-- Where `PlainResNetInference.__init__` obtains the checkpoint:
`torch.load(weights, ...)` on a file path, or
`load_state_dict_from_url(url, ...)`. -/
inductive CheckpointSource where
  | fromFile (path : String)
  | fromUrl (u : String)
deriving DecidableEq, Repr

/-- Transform installed by `PlainResNetInference.__init__`: the caller-supplied
one if given (abstracted by an identifier), else
`pw_trans.Classification_Inference_Transform(target_size=self.IMAGE_SIZE)`
(with `IMAGE_SIZE = None` on the base class). -/
inductive TransformChoice where
  | custom (t : Nat)
  | classificationInference (targetSize : Option Nat)
deriving DecidableEq, Repr

/-- State established by a successful run of `PlainResNetInference.__init__`. -/
structure InitState where
  net : NetConfig
  source : CheckpointSource
  device : String
  transform : TransformChoice
deriving DecidableEq, Repr

/-- Tail of `PlainResNetInference.__init__` once the checkpoint source has
been determined: `load_state_dict(...)`, `self.eval()`, `self.net.to(device)`
and the transform selection (`self.transform = transform` if one was passed,
else the default `Classification_Inference_Transform`). -/
def PlainResNetInference.initRest (net : NetConfig) (source : CheckpointSource)
    (device : String) (transform : Option Nat) : Except ModuleError InitState :=
  Except.ok { net := net, source := source, device := device,
              transform :=
                match transform with
                | some t => TransformChoice.custom t
                | none => TransformChoice.classificationInference none }

/-- Embedding of `PlainResNetInference.__init__`.  In source order: it first
constructs `PlainResNetClassifier(num_cls, num_layers)` (which runs
`setup_net` and can raise), then checks `if weights: ... elif url: ... else:
raise Exception("Need weights for inference.")`, and finally installs the
transform.  A Python-falsy `weights`/`url` argument (absent) is modelled as
`none`. -/
def PlainResNetInference.init (num_cls : Nat) (num_layers : Int)
    (weights : Option String) (device : String) (url : Option String)
    (transform : Option Nat) : Except ModuleError InitState :=
  match setup_net num_cls num_layers with
  | Except.error e => Except.error e
  | Except.ok net =>
    match weights with
    | some w => PlainResNetInference.initRest net (CheckpointSource.fromFile w) device transform
    | none =>
      match url with
      | some u => PlainResNetInference.initRest net (CheckpointSource.fromUrl u) device transform
      | none => Except.error ModuleError.needWeights

deriving instance DecidableEq for Except

example : setup_net 36 18 = Except.ok
    { block := Block.basicBlock, layers := [2, 2, 2, 2],
      classifierInDim := 512, classifierOutDim := 36 } := by decide

example : setup_net 36 50 = Except.ok
    { block := Block.bottleneck, layers := [3, 4, 6, 3],
      classifierInDim := 2048, classifierOutDim := 36 } := by decide

example : setup_net 36 34 = Except.error ModuleError.resnetTypeNotSupported := by decide

example :
    PlainResNetInference.init 36 19 (some "w.pth") "cpu" none none
      = Except.error ModuleError.resnetTypeNotSupported := by decide

/-- Operations available inside `ResNetBackbone`, including the final
fully-connected layer `fc` that a stock torchvision `ResNet._forward_impl`
would apply but the override does not. -/
inductive BackboneOp where
  | conv1
  | bn1
  | relu
  | maxpool
  | layer1
  | layer2
  | layer3
  | layer4
  | avgpool
  | flatten
  | fc
deriving DecidableEq, Repr

/-- Embedding of `ResNetBackbone._forward_impl`.  A tensor is represented by
the ordered list of backbone operations applied to it so far; each source
line `x = self.op(x)` appends `op`.  The final `torch.flatten(x, 1)` appends
`flatten`. -/
def ResNetBackbone.forward_impl (x0 : List BackboneOp) : List BackboneOp :=
  let x := x0 ++ [BackboneOp.conv1]
  let x := x ++ [BackboneOp.bn1]
  let x := x ++ [BackboneOp.relu]
  let x := x ++ [BackboneOp.maxpool]
  let x := x ++ [BackboneOp.layer1]
  let x := x ++ [BackboneOp.layer2]
  let x := x ++ [BackboneOp.layer3]
  let x := x ++ [BackboneOp.layer4]
  let x := x ++ [BackboneOp.avgpool]
  let x := x ++ [BackboneOp.flatten]
  x

/-- PIL image values appearing in `single_image_classification`:
`Image.open(path)` for a string input, `Image.fromarray(arr)` otherwise
(the numpy array abstracted by an identifier). -/
inductive PILImage where
  | opened (path : String)
  | fromarray (arr : Nat)
deriving DecidableEq, Repr

/-- Symbolic tensor expressions: each constructor records one framework
operation applied by this module.  `softmax`, `argmax` and `sigmoid` are
normalization / decision operations the framework offers; they appear in no
definition embedded from this module, which is what the raw-logits claims
assert. -/
inductive Tensor where
  | item (n : Nat)
  | transformed (im : PILImage)
  | toDevice (device : String) (t : Tensor)
  | featureOf (t : Tensor)
  | classifierOf (t : Tensor)
  | cpuT (t : Tensor)
  | softmax (t : Tensor)
  | argmax (t : Tensor)
  | sigmoid (t : Tensor)
deriving DecidableEq, Repr

/-- Number of normalization / decision operations (`softmax`, `argmax`,
`sigmoid`) occurring in a tensor expression. -/
def Tensor.normOpCount : Tensor → Nat
  | Tensor.item _ => 0
  | Tensor.transformed _ => 0
  | Tensor.toDevice _ t => t.normOpCount
  | Tensor.featureOf t => t.normOpCount
  | Tensor.classifierOf t => t.normOpCount
  | Tensor.cpuT t => t.normOpCount
  | Tensor.softmax t => t.normOpCount + 1
  | Tensor.argmax t => t.normOpCount + 1
  | Tensor.sigmoid t => t.normOpCount + 1

/-- Embedding of `PlainResNetInference.forward`:
`feats = self.net.feature(img); logits = self.net.classifier(feats)`. -/
def PlainResNetInference.forward (img : Tensor) : Tensor :=
  let feats := Tensor.featureOf img
  let logits := Tensor.classifierOf feats
  logits

/-- Result dictionaries produced by an overriding `results_generation`
(abstracted by an identifier; the base class produces none at all). -/
structure ResultDict where
  val : Nat
deriving DecidableEq, Repr

/-- Type of a (possibly overridden) `results_generation` method: it receives
the logits tensor (modelled row-wise, one row per image), the image ids
(`None`-able, since `single_image_classification` passes `[img_id]` with
`img_id` defaulting to `None`), and `id_strip`; it returns `None` or a list
of result dictionaries. -/
def RGen : Type :=
  List Tensor → List (Option String) → Option String → Option (List ResultDict)

/-- Embedding of the base-class `PlainResNetInference.results_generation`:
its body is a single `pass` statement, so every call returns `None`. -/
def base_results_generation : RGen :=
  fun _ _ _ => none

/-- Python errors produced by the interpreter (not by an explicit `raise` of
this module): subscripting `None` raises `TypeError`, subscripting an empty
list at 0 raises `IndexError`. -/
inductive PyError where
  | typeError
  | indexError
deriving DecidableEq, Repr

/-- Embedding of the trailing `[0]` subscript in
`single_image_classification`: Python raises `TypeError` when the value being
subscripted is `None`, `IndexError` when the list is empty. -/
def subscript0 (r : Option (List ResultDict)) : Except PyError ResultDict :=
  match r with
  | none => Except.error PyError.typeError
  | some l =>
    match l.head? with
    | some x => Except.ok x
    | none => Except.error PyError.indexError

/-- Input accepted by `single_image_classification`: a filesystem path
(a Python `str`) or an in-memory array (abstracted by an identifier). -/
inductive ImgInput where
  | path (p : String)
  | arr (a : Nat)
deriving DecidableEq, Repr

/-- Embedding of the input branch at the top of
`single_image_classification`: `if type(img) == str: img = Image.open(img)
else: img = Image.fromarray(img)`. -/
def loadImage : ImgInput → PILImage
  | ImgInput.path p => PILImage.opened p
  | ImgInput.arr a => PILImage.fromarray a

/-- Embedding of `PlainResNetInference.single_image_classification`,
parameterized by the dynamically dispatched `results_generation` method `rg`
(the base class supplies `base_results_generation`).  Line by line:
load the image, `img = self.transform(img)`, `img.unsqueeze(0)` (modelled as
forming the one-row batch `[t]`), `.to(self.device)`, `self.forward(...)`,
then `self.results_generation(logits.cpu(), [img_id], id_strip=id_strip)[0]`. -/
def single_image_classification (rg : RGen) (device : String) (img : ImgInput)
    (img_id : Option String) (id_strip : Option String) :
    Except PyError ResultDict :=
  let pil := loadImage img
  let t := Tensor.transformed pil
  let batched := [t]
  let logits := (batched.map (Tensor.toDevice device)).map PlainResNetInference.forward
  subscript0 (rg (logits.map Tensor.cpuT) [img_id] id_strip)

/-- The single-image logits as the spec sentence describes the pipeline:
the configured transform, then the forward pass on the configured device,
then the move to CPU. -/
def specSingleLogits (device : String) (img : ImgInput) : Tensor :=
  Tensor.cpuT
    (PlainResNetInference.forward (Tensor.toDevice device (Tensor.transformed (loadImage img))))

example :
    single_image_classification base_results_generation "cpu" (ImgInput.path "a.jpg") none none
      = Except.error PyError.typeError := by decide

/-- Splitting a list into consecutive chunks of size `n` (the last chunk may
be shorter), with fuel to make the recursion structural; `toBatches` below
supplies `xs.length` as fuel, which is always enough when `0 < n`. -/
def toBatchesAux (n : Nat) : Nat → List α → List (List α)
  | _, [] => []
  | 0, _ => []
  | fuel + 1, xs => xs.take n :: toBatchesAux n fuel (xs.drop n)

/-- Consecutive chunks of size `n` of a list, last chunk possibly shorter. -/
def toBatches (n : Nat) (xs : List α) : List (List α) :=
  toBatchesAux n xs.length xs

/-- Keyword arguments of the `DataLoader(...)` call in
`batch_image_classification`. -/
structure DataLoaderCfg where
  batch_size : Nat
  shuffle : Bool
  pin_memory : Bool
  num_workers : Nat
  drop_last : Bool
deriving DecidableEq, Repr

/-- The exact configuration used by `batch_image_classification`:
`DataLoader(dataset, batch_size=32, shuffle=False, pin_memory=True,
num_workers=4, drop_last=False)`. -/
def batchLoaderCfg : DataLoaderCfg :=
  { batch_size := 32, shuffle := false, pin_memory := true,
    num_workers := 4, drop_last := false }

/-- Batches a torch `DataLoader` yields over a dataset, modelled for the
deterministic `shuffle=False` case (the only one this module uses): the
dataset order is preserved, items are grouped in `batch_size` chunks, and
with `drop_last=True` a final chunk shorter than `batch_size` would be
discarded. -/
def dataLoaderBatches (cfg : DataLoaderCfg) (ds : List α) : List (List α) :=
  let bs := toBatches cfg.batch_size ds
  if cfg.drop_last then bs.filter (fun b => b.length = cfg.batch_size) else bs

/-- The accumulation loop of `batch_image_classification` over the batches,
followed by `torch.cat(total_logits, dim=0).cpu()` (concatenation modelled as
`List.flatten`, the trailing `.cpu()` applied row-wise) and
`np.concatenate(total_paths, axis=0)`.  Each dataset item is an
(image tensor, path) pair as yielded by the dataset classes; per batch the
loop runs `imgs.to(self.device)` and `self.forward(imgs)` (both act
independently on each row of the batch). -/
def batchTotals (device : String) (dataset : List (Tensor × String)) :
    List Tensor × List String :=
  let batches := dataLoaderBatches batchLoaderCfg dataset
  let total_logits :=
    batches.map (fun b =>
      (b.map (fun it => Tensor.toDevice device it.1)).map PlainResNetInference.forward)
  let total_paths := batches.map (fun b => b.map Prod.snd)
  ((total_logits.flatten).map Tensor.cpuT, total_paths.flatten)

/-- Embedding of `PlainResNetInference.batch_image_classification`,
parameterized by the dynamically dispatched `results_generation` method.
`if data_path: dataset = ImageFolder(...) elif det_results: dataset =
DetectionCrops(...) else: raise Exception("Need data for inference.")`;
the framework dataset loaders are abstracted by taking the list of
(image tensor, path) items they would yield.  The final call passes the
concatenated logits and paths to `results_generation` (path strings wrapped
in `some`, since the shared method signature allows `None` ids from
`single_image_classification`). -/
def batch_image_classification (rg : RGen) (device : String)
    (data_path : Option (List (Tensor × String)))
    (det_results : Option (List (Tensor × String)))
    (id_strip : Option String) : Except ModuleError (Option (List ResultDict)) :=
  match data_path with
  | some folderItems =>
    let totals := batchTotals device folderItems
    Except.ok (rg totals.1 (totals.2.map some) id_strip)
  | none =>
    match det_results with
    | some cropItems =>
      let totals := batchTotals device cropItems
      Except.ok (rg totals.1 (totals.2.map some) id_strip)
    | none => Except.error ModuleError.needData

example :
    batch_image_classification base_results_generation "cpu" none none none
      = Except.error ModuleError.needData := by decide

example :
    toBatches 2 [1, 2, 3, 4, 5] = [[1, 2], [3, 4], [5]] := by decide

/-- Helper: an `Except` computation models a Python call that raised. -/
def raisesB {ε α : Type} (x : Except ε α) : Bool :=
  match x with
  | Except.error _ => true
  | Except.ok _ => false

/-- Helper: with enough fuel and a positive chunk size, concatenating the
chunks restores the original list. -/
theorem toBatchesAux_flatten {α : Type} (n : Nat) (hn : 0 < n) :
    ∀ (fuel : Nat) (xs : List α), xs.length ≤ fuel →
      (toBatchesAux n fuel xs).flatten = xs := by
  intro fuel
  induction fuel with
  | zero =>
    intro xs hx
    cases xs with
    | nil => rfl
    | cons a t => simp at hx
  | succ m ih =>
    intro xs hx
    cases xs with
    | nil => rfl
    | cons a t =>
      have hlen : ((a :: t).drop n).length ≤ m := by
        rw [List.length_drop]
        simp only [List.length_cons] at hx ⊢
        omega
      show ((a :: t).take n :: toBatchesAux n m ((a :: t).drop n)).flatten = a :: t
      rw [List.flatten_cons, ih _ hlen, List.take_append_drop]

/-- Helper: concatenating the batches of size `n > 0` restores the dataset. -/
theorem toBatches_flatten {α : Type} (n : Nat) (hn : 0 < n) (xs : List α) :
    (toBatches n xs).flatten = xs :=
  toBatchesAux_flatten n hn xs.length xs (Nat.le_refl _)

/-- Helper: with the module's configuration (`drop_last=False`,
`shuffle=False`), the data loader yields exactly the size-32 chunks of the
dataset. -/
theorem dataLoaderBatches_batchCfg {α : Type} (ds : List α) :
    dataLoaderBatches batchLoaderCfg ds = toBatches 32 ds := rfl

/-- Helper: the concatenated path list of `batch_image_classification`
lists every dataset item's path exactly once, in dataset order. -/
theorem batchTotals_paths (device : String) (dataset : List (Tensor × String)) :
    (batchTotals device dataset).2 = dataset.map Prod.snd := by
  show ((dataLoaderBatches batchLoaderCfg dataset).map (fun b => b.map Prod.snd)).flatten
      = dataset.map Prod.snd
  rw [dataLoaderBatches_batchCfg]
  rw [show (fun (b : List (Tensor × String)) => b.map Prod.snd) = List.map Prod.snd from rfl]
  rw [← List.map_flatten, toBatches_flatten 32 (by decide)]

/-- Helper: the concatenated logits of `batch_image_classification` contain,
in dataset order, exactly one forward-pass result per dataset image. -/
theorem batchTotals_logits (device : String) (dataset : List (Tensor × String)) :
    (batchTotals device dataset).1
      = dataset.map (fun it =>
          Tensor.cpuT (PlainResNetInference.forward (Tensor.toDevice device it.1))) := by
  show ((((dataLoaderBatches batchLoaderCfg dataset).map (fun b =>
        (b.map (fun it => Tensor.toDevice device it.1)).map
          PlainResNetInference.forward)).flatten).map Tensor.cpuT)
      = dataset.map (fun it =>
          Tensor.cpuT (PlainResNetInference.forward (Tensor.toDevice device it.1)))
  rw [dataLoaderBatches_batchCfg]
  simp only [List.map_map]
  rw [← List.map_flatten, toBatches_flatten 32 (by decide)]
  simp [Function.comp]

/-- C1 is refuted at a concrete input: calling `batch_image_classification`
with neither `data_path` nor `det_results` executes the third explicit
`raise` of the module, `"Need data for inference."`, which is neither the
missing-weights exception nor the unsupported-layer-count exception. -/
theorem C1_counterexample :
    batch_image_classification base_results_generation "cpu" none none none
      = Except.error ModuleError.needData
    ∧ ModuleError.needData ≠ ModuleError.needWeights
    ∧ ModuleError.needData ≠ ModuleError.resnetTypeNotSupported :=
  ⟨rfl, by decide, by decide⟩

/-- C1 (amended): the module has exactly three explicit error paths — missing
weights and unsupported layer count as the claim says, plus missing data in
`batch_image_classification` — and each exception is raised only for its own
violated precondition. -/
theorem C1_error_paths :
    (∀ (num_cls : Nat) (num_layers : Int) (weights : Option String)
        (device : String) (url : Option String) (transform : Option Nat)
        (e : ModuleError),
      PlainResNetInference.init num_cls num_layers weights device url transform
          = Except.error e →
        (e = ModuleError.resnetTypeNotSupported ∧ num_layers ≠ 18 ∧ num_layers ≠ 50)
        ∨ (e = ModuleError.needWeights ∧ weights = none ∧ url = none))
    ∧ (∀ (num_cls : Nat) (num_layers : Int) (e : ModuleError),
      setup_net num_cls num_layers = Except.error e →
        e = ModuleError.resnetTypeNotSupported ∧ num_layers ≠ 18 ∧ num_layers ≠ 50)
    ∧ (∀ (rg : RGen) (device : String)
        (data_path det_results : Option (List (Tensor × String)))
        (id_strip : Option String) (e : ModuleError),
      batch_image_classification rg device data_path det_results id_strip
          = Except.error e →
        e = ModuleError.needData ∧ data_path = none ∧ det_results = none) := by
  have hsetup : ∀ (num_cls : Nat) (num_layers : Int) (e : ModuleError),
      setup_net num_cls num_layers = Except.error e →
        e = ModuleError.resnetTypeNotSupported ∧ num_layers ≠ 18 ∧ num_layers ≠ 50 := by
    intro num_cls num_layers e h
    by_cases h18 : num_layers = 18
    · subst h18; simp [setup_net] at h
    · by_cases h50 : num_layers = 50
      · subst h50; simp [setup_net] at h
      · simp only [setup_net, if_neg h18, if_neg h50, Except.error.injEq] at h
        exact ⟨h.symm, h18, h50⟩
  refine ⟨?_, hsetup, ?_⟩
  · intro num_cls num_layers weights device url transform e h
    cases hs : setup_net num_cls num_layers with
    | error e0 =>
      simp only [PlainResNetInference.init, hs, Except.error.injEq] at h
      subst h
      exact Or.inl (hsetup _ _ _ hs)
    | ok net =>
      cases weights with
      | some w => simp [PlainResNetInference.init, hs, PlainResNetInference.initRest] at h
      | none =>
        cases url with
        | some u => simp [PlainResNetInference.init, hs, PlainResNetInference.initRest] at h
        | none =>
          simp only [PlainResNetInference.init, hs, Except.error.injEq] at h
          exact Or.inr ⟨h.symm, rfl, rfl⟩
  · intro rg device data_path det_results id_strip e h
    cases data_path with
    | some folderItems => simp [batch_image_classification] at h
    | none =>
      cases det_results with
      | some cropItems => simp [batch_image_classification] at h
      | none =>
        simp only [batch_image_classification, Except.error.injEq] at h
        exact ⟨h.symm, rfl, rfl⟩

/-- Witness for C1 (amended), exercising each of the three error paths at a
concrete input and one success path. -/
theorem C1_witness :
    (ModuleError.needWeights = ModuleError.needWeights
      ∧ (none : Option String) = none ∧ (none : Option String) = none)
    ∧ (ModuleError.resnetTypeNotSupported = ModuleError.resnetTypeNotSupported
      ∧ (34 : Int) ≠ 18 ∧ (34 : Int) ≠ 50)
    ∧ (ModuleError.needData = ModuleError.needData
      ∧ (none : Option (List (Tensor × String))) = none
      ∧ (none : Option (List (Tensor × String))) = none) := by
  refine ⟨?_, ?_, ?_⟩
  · have h := C1_error_paths.1 36 50 none "cpu" none none ModuleError.needWeights rfl
    rcases h with h | h
    · exact absurd h.1 (by decide)
    · exact h
  · exact C1_error_paths.2.1 36 34 ModuleError.resnetTypeNotSupported rfl
  · exact C1_error_paths.2.2 base_results_generation "cpu" none none none
      ModuleError.needData rfl

/-- C2: `setup_net` raises exactly when `num_layers` is neither 18 nor 50;
with 18 it builds the backbone from `BasicBlock` with stage sizes
[2, 2, 2, 2], with 50 from `Bottleneck` with stage sizes [3, 4, 6, 3]. -/
theorem C2_setup_net_cases (num_cls : Nat) (num_layers : Int) :
    (raisesB (setup_net num_cls num_layers) = true
      ↔ num_layers ≠ 18 ∧ num_layers ≠ 50)
    ∧ (num_layers = 18 →
        ∃ cfg, setup_net num_cls num_layers = Except.ok cfg
          ∧ cfg.block = Block.basicBlock ∧ cfg.layers = [2, 2, 2, 2])
    ∧ (num_layers = 50 →
        ∃ cfg, setup_net num_cls num_layers = Except.ok cfg
          ∧ cfg.block = Block.bottleneck ∧ cfg.layers = [3, 4, 6, 3]) := by
  by_cases h18 : num_layers = 18
  · subst h18
    refine ⟨by simp [setup_net, raisesB], fun _ => ⟨_, rfl, rfl, rfl⟩, fun h => absurd h (by decide)⟩
  · by_cases h50 : num_layers = 50
    · subst h50
      refine ⟨by simp [setup_net, raisesB], fun h => absurd h (by decide), fun _ => ⟨_, rfl, rfl, rfl⟩⟩
    · refine ⟨?_, fun h => absurd h h18, fun h => absurd h h50⟩
      simp only [setup_net, if_neg h18, if_neg h50, raisesB]
      simp [h18, h50]

/-- Witness for C2 at the concrete layer counts 18, 50 and 34. -/
theorem C2_witness :
    (∃ cfg, setup_net 36 18 = Except.ok cfg
      ∧ cfg.block = Block.basicBlock ∧ cfg.layers = [2, 2, 2, 2])
    ∧ (∃ cfg, setup_net 36 50 = Except.ok cfg
      ∧ cfg.block = Block.bottleneck ∧ cfg.layers = [3, 4, 6, 3])
    ∧ raisesB (setup_net 36 34) = true :=
  ⟨(C2_setup_net_cases 36 18).2.1 rfl,
   (C2_setup_net_cases 36 50).2.2 rfl,
   (C2_setup_net_cases 36 34).1.mpr (by decide)⟩

/-- C3 is refuted at a concrete input: with an unsupported `num_layers`,
`__init__` raises (while constructing `PlainResNetClassifier`, before the
weights check) even though a `weights` argument was supplied, so "raises an
exception if and only if both the weights argument and the url argument are
absent" fails in the only-if direction. -/
theorem C3_counterexample :
    raisesB (PlainResNetInference.init 36 19 (some "weights.pth") "cpu" none none) = true
    ∧ (some "weights.pth" : Option String) ≠ none :=
  ⟨rfl, Option.some_ne_none _⟩

/-- C3 (amended): provided `num_layers` is one of the supported values (18 or
50, in particular the default 50), `__init__` raises exactly when both
`weights` and `url` are absent; a supplied `weights` path makes the
checkpoint load from that file, and otherwise a supplied `url` makes it
download from that URL. -/
theorem C3_init_weight_source (num_cls : Nat) (num_layers : Int)
    (weights : Option String) (device : String) (url : Option String)
    (transform : Option Nat)
    (hsupp : num_layers = 18 ∨ num_layers = 50) :
    (raisesB (PlainResNetInference.init num_cls num_layers weights device url transform) = true
      ↔ weights = none ∧ url = none)
    ∧ (∀ w, weights = some w →
        ∃ st, PlainResNetInference.init num_cls num_layers weights device url transform
            = Except.ok st ∧ st.source = CheckpointSource.fromFile w)
    ∧ (∀ u, weights = none → url = some u →
        ∃ st, PlainResNetInference.init num_cls num_layers weights device url transform
            = Except.ok st ∧ st.source = CheckpointSource.fromUrl u) := by
  obtain ⟨net, hs⟩ : ∃ net, setup_net num_cls num_layers = Except.ok net := by
    rcases hsupp with h | h <;> subst h <;> exact ⟨_, rfl⟩
  cases weights with
  | some w =>
    simp [PlainResNetInference.init, hs, PlainResNetInference.initRest, raisesB]
  | none =>
    cases url with
    | some u =>
      simp [PlainResNetInference.init, hs, PlainResNetInference.initRest, raisesB]
    | none =>
      simp [PlainResNetInference.init, hs, raisesB]

/-- Witness for C3 (amended) at concrete inputs: the default layer count 50
with a weights file, with only a URL, and with neither. -/
theorem C3_witness :
    (∃ st, PlainResNetInference.init 36 50 (some "ckpt.pth") "cpu" none none
        = Except.ok st ∧ st.source = CheckpointSource.fromFile "ckpt.pth")
    ∧ (∃ st, PlainResNetInference.init 36 50 none "cpu" (some "http://zoo/md_v5.pt") none
        = Except.ok st ∧ st.source = CheckpointSource.fromUrl "http://zoo/md_v5.pt")
    ∧ raisesB (PlainResNetInference.init 36 50 none "cpu" none none) = true :=
  ⟨(C3_init_weight_source 36 50 (some "ckpt.pth") "cpu" none none (Or.inr rfl)).2.1
      "ckpt.pth" rfl,
   (C3_init_weight_source 36 50 none "cpu" (some "http://zoo/md_v5.pt") none
      (Or.inr rfl)).2.2 "http://zoo/md_v5.pt" rfl rfl,
   (C3_init_weight_source 36 50 none "cpu" none none (Or.inr rfl)).1.mpr ⟨rfl, rfl⟩⟩

/-- C4: `forward` returns exactly the linear classifier head applied to the
backbone's extracted features, and applies no softmax, argmax or other
normalization on top: the returned expression adds no normalization /
decision operation to the input. -/
theorem C4_forward_raw_logits (img : Tensor) :
    PlainResNetInference.forward img = Tensor.classifierOf (Tensor.featureOf img)
    ∧ (PlainResNetInference.forward img).normOpCount = img.normOpCount :=
  ⟨rfl, by simp [PlainResNetInference.forward, Tensor.normOpCount]⟩

/-- C5: `ResNetBackbone._forward_impl` applies, in order, `conv1`, `bn1`,
`relu`, `maxpool`, `layer1`, `layer2`, `layer3`, `layer4`, `avgpool` and the
flatten, and never applies the final fully-connected layer `fc`: for every
input the result ends in the flattened feature, not in class scores. -/
theorem C5_backbone_ops (x0 : List BackboneOp) :
    ResNetBackbone.forward_impl x0
      = x0 ++ [BackboneOp.conv1, BackboneOp.bn1, BackboneOp.relu, BackboneOp.maxpool,
               BackboneOp.layer1, BackboneOp.layer2, BackboneOp.layer3, BackboneOp.layer4,
               BackboneOp.avgpool, BackboneOp.flatten]
    ∧ BackboneOp.fc ∉ (ResNetBackbone.forward_impl x0).drop x0.length
    ∧ (ResNetBackbone.forward_impl x0).getLast? = some BackboneOp.flatten := by
  have h : ResNetBackbone.forward_impl x0
      = x0 ++ [BackboneOp.conv1, BackboneOp.bn1, BackboneOp.relu, BackboneOp.maxpool,
               BackboneOp.layer1, BackboneOp.layer2, BackboneOp.layer3, BackboneOp.layer4,
               BackboneOp.avgpool, BackboneOp.flatten] := by
    simp [ResNetBackbone.forward_impl]
  refine ⟨h, ?_, ?_⟩
  · rw [h, List.drop_left]
    decide
  · rw [h]
    simp

/-- C6: `single_image_classification` performs, in order: the configured
transform, the forward pass on the configured device, the move of the logits
to CPU, post-processing through `results_generation` with the given image
id, and the `[0]` subscript of the result. -/
theorem C6_single_pipeline (rg : RGen) (device : String) (img : ImgInput)
    (img_id id_strip : Option String) :
    single_image_classification rg device img img_id id_strip
      = subscript0 (rg [specSingleLogits device img] [img_id] id_strip) := rfl

/-- C7: `batch_image_classification` configures the data loader with batch
size 32, `shuffle=False` and `drop_last=False`, and the concatenated logits
and concatenated paths it passes to `results_generation` cover every image
of the dataset exactly once and in dataset order. -/
theorem C7_batch_coverage (device : String) (dataset : List (Tensor × String)) :
    batchLoaderCfg.batch_size = 32
    ∧ batchLoaderCfg.shuffle = false
    ∧ batchLoaderCfg.drop_last = false
    ∧ (batchTotals device dataset).2 = dataset.map Prod.snd
    ∧ (batchTotals device dataset).1
        = dataset.map (fun it =>
            Tensor.cpuT (PlainResNetInference.forward (Tensor.toDevice device it.1)))
    ∧ (∀ (rg : RGen) (id_strip : Option String),
        batch_image_classification rg device (some dataset) none id_strip
          = Except.ok (rg (batchTotals device dataset).1
              ((batchTotals device dataset).2.map some) id_strip)) :=
  ⟨rfl, rfl, rfl, batchTotals_paths device dataset, batchTotals_logits device dataset,
   fun _ _ => rfl⟩

/-- C8: `single_image_classification` accepts a filesystem path or an
in-memory array: a string input is opened with `Image.open` at that path,
and a non-string input is converted with `Image.fromarray`; in both cases
the loaded image then flows through the pipeline. -/
theorem C8_image_loading (rg : RGen) (device : String)
    (img_id id_strip : Option String) :
    (∀ p, loadImage (ImgInput.path p) = PILImage.opened p)
    ∧ (∀ a, loadImage (ImgInput.arr a) = PILImage.fromarray a)
    ∧ (∀ p, single_image_classification rg device (ImgInput.path p) img_id id_strip
        = subscript0 (rg [Tensor.cpuT (PlainResNetInference.forward
            (Tensor.toDevice device (Tensor.transformed (PILImage.opened p))))]
            [img_id] id_strip))
    ∧ (∀ a, single_image_classification rg device (ImgInput.arr a) img_id id_strip
        = subscript0 (rg [Tensor.cpuT (PlainResNetInference.forward
            (Tensor.toDevice device (Tensor.transformed (PILImage.fromarray a))))]
            [img_id] id_strip)) :=
  ⟨fun _ => rfl, fun _ => rfl, fun _ => rfl, fun _ => rfl⟩

/-- C9: the base-class `results_generation` returns `None` on every input
(its body is `pass`), so on a base-class instance every
`single_image_classification` call ends by subscripting `None` with `[0]`
and raises `TypeError`. -/
theorem C9_base_results_none (device : String) (img : ImgInput)
    (img_id id_strip : Option String) (logits : List Tensor)
    (ids : List (Option String)) (strip : Option String) :
    base_results_generation logits ids strip = none
    ∧ single_image_classification base_results_generation device img img_id id_strip
        = Except.error PyError.typeError :=
  ⟨rfl, rfl⟩

/-- C10: every configuration `setup_net` can produce keeps the classifier
head input dimension at `512 * block.expansion`, which equals the backbone's
avgpool-and-flatten output dimension; concretely 512 for `num_layers = 18`
(BasicBlock) and 2048 for `num_layers = 50` (Bottleneck). -/
theorem C10_classifier_head_dim (num_cls : Nat) (num_layers : Int)
    (cfg : NetConfig) (h : setup_net num_cls num_layers = Except.ok cfg) :
    cfg.classifierInDim = 512 * cfg.block.expansion
    ∧ cfg.classifierInDim = backboneOutDim cfg.block
    ∧ (num_layers = 18 → cfg.block = Block.basicBlock ∧ cfg.classifierInDim = 512)
    ∧ (num_layers = 50 → cfg.block = Block.bottleneck ∧ cfg.classifierInDim = 2048) := by
  by_cases h18 : num_layers = 18
  · subst h18
    simp [setup_net] at h
    subst h
    exact ⟨rfl, rfl, fun _ => ⟨rfl, rfl⟩, fun hc => absurd hc (by decide)⟩
  · by_cases h50 : num_layers = 50
    · subst h50
      simp [setup_net] at h
      subst h
      exact ⟨rfl, rfl, fun hc => absurd hc (by decide), fun _ => ⟨rfl, rfl⟩⟩
    · simp only [setup_net, if_neg h18, if_neg h50] at h
      cases h

/-- Witness for C10 at the two supported layer counts. -/
theorem C10_witness :
    ((NetConfig.mk Block.basicBlock [2, 2, 2, 2] 512 36).block = Block.basicBlock
      ∧ (NetConfig.mk Block.basicBlock [2, 2, 2, 2] 512 36).classifierInDim = 512)
    ∧ ((NetConfig.mk Block.bottleneck [3, 4, 6, 3] 2048 36).block = Block.bottleneck
      ∧ (NetConfig.mk Block.bottleneck [3, 4, 6, 3] 2048 36).classifierInDim = 2048) :=
  ⟨(C10_classifier_head_dim 36 18 (NetConfig.mk Block.basicBlock [2, 2, 2, 2] 512 36)
      (by decide)).2.2.1 rfl,
   (C10_classifier_head_dim 36 50 (NetConfig.mk Block.bottleneck [3, 4, 6, 3] 2048 36)
      (by decide)).2.2.2 rfl⟩
